import Mathlib

/-!
Verification of the AI-assisted analysis pipeline of `meditrack_api`.

Shallow embedding of the Python modules
  app/ai/response_parser.py
  app/ai/grok_client.py
  app/ai/streaming.py
  app/utils/medical_calculations.py
  app/services/ai_analysis_service.py
into Lean definitions, followed by theorems settling the claims about them.

Modelling conventions:
  * Python `str` values are modelled as `List Char` (and as `String` at
    the outer interfaces); `.lower()` is modelled with `Char.toLower`,
    which is faithful for the ASCII texts involved.
  * Python regular-expression character classes `\s` and `\w` are
    modelled over their ASCII core.
  * Python floats are modelled as `ℚ` (exact rational arithmetic); all
    claim inputs are exactly representable.
  * `async` sleeping and HTTP transport are modelled by explicit
    accounting: a transcript function gives each attempt's response, and
    the embedding returns the outcome together with the number of
    attempts made and the total number of seconds slept.
-/

set_option linter.unusedVariables false

namespace Meditrack

/-! ## Character classes (ASCII core of Python `\s`, `\w`, `str.strip`) -/

/-- ASCII whitespace recognised by Python `\s` and `str.strip()`:
space, tab, newline, carriage return, form feed, vertical tab. -/
def isPySpace (c : Char) : Bool :=
  c = ' ' || c = '\t' || c = '\n' || c = '\r' || c = Char.ofNat 12 || c = Char.ofNat 11

/-- ASCII word character, the core of Python regex `\w`: letters, digits,
underscore. -/
def isWordChar (c : Char) : Bool :=
  c.isAlpha || c.isDigit || c = '_'

/-- Python `str.strip()`: drop leading and trailing whitespace. -/
def pyStrip (s : List Char) : List Char :=
  ((s.dropWhile isPySpace).reverse.dropWhile isPySpace).reverse

/-! ## `sanitize_ai_output` (app/ai/response_parser.py)

`sanitize_ai_output(text, max_length=10000)` applies, in order:
  1. `re.sub(r"<[^>]+>", "", text)`       — strip HTML-like tags
  2. `re.sub(r"\s+", " ", text)`          — collapse whitespace runs
  3. `re.sub(r"\n{3,}", "\n\n", text)`    — collapse triple-plus newlines
  4. truncation at `max_length` with marker `"... (truncated)"`
  5. `str.strip()`
with an early `return ""` when the input is empty (falsy). -/

/-- Single pass of `re.sub(r"<[^>]+>", "", text)`.  The optional buffer
holds a pending `<` together with the following non-`>` characters
(`[^>]+` also matches `<`).  On `>`: a buffer of length ≥ 2 is a
complete `<[^>]+>` match and is dropped; a bare `['<']` buffer is the
non-match `<>`, which the regex skips over, so it is kept.  A buffer
still pending at the end of the input (no closing `>` left) is emitted
literally, matching the regex finding no further match. -/
def stripTagsAux : Option (List Char) → List Char → List Char
  | none, [] => []
  | some buf, [] => buf
  | none, c :: rest =>
    if c = '<' then stripTagsAux (some ['<']) rest
    else c :: stripTagsAux none rest
  | some buf, c :: rest =>
    if c = '>' then
      if 2 ≤ buf.length then stripTagsAux none rest
      else '<' :: '>' :: stripTagsAux none rest
    else stripTagsAux (some (buf ++ [c])) rest

/-- `re.sub(r"<[^>]+>", "", text)`: leftmost, non-overlapping removal of
each `<`, one-plus non-`>` characters, `>` run. -/
def stripTags (s : List Char) : List Char :=
  stripTagsAux none s

/-- Single pass of `re.sub(r"\s+", " ", text)`: the flag records whether
the previous character was whitespace (run already emitted as one
space). -/
def collapseWsAux : Bool → List Char → List Char
  | _, [] => []
  | inRun, c :: rest =>
    if isPySpace c then
      if inRun then collapseWsAux true rest
      else ' ' :: collapseWsAux true rest
    else c :: collapseWsAux false rest

/-- `re.sub(r"\s+", " ", text)`: each maximal whitespace run becomes a
single space. -/
def collapseWs (s : List Char) : List Char :=
  collapseWsAux false s

/-- What a maximal run of `n` newlines becomes under
`re.sub(r"\n{3,}", "\n\n", text)`: two newlines when `n ≥ 3`, otherwise
the run unchanged. -/
def emitNlRun (n : Nat) : List Char :=
  if 3 ≤ n then ['\n', '\n'] else List.replicate n '\n'

/-- Single pass of `re.sub(r"\n{3,}", "\n\n", text)`: `n` counts the
pending newline run. -/
def collapseNlAux : Nat → List Char → List Char
  | n, [] => emitNlRun n
  | n, c :: rest =>
    if c = '\n' then collapseNlAux (n + 1) rest
    else emitNlRun n ++ c :: collapseNlAux 0 rest

/-- `re.sub(r"\n{3,}", "\n\n", text)`: each maximal run of three or more
newlines becomes exactly two newlines; shorter runs are untouched. -/
def collapseNl (s : List Char) : List Char :=
  collapseNlAux 0 s

/-- The truncation marker appended by `sanitize_ai_output`. -/
def truncationMarker : List Char := "... (truncated)".data

/-- `sanitize_ai_output(text, max_length)` from app/ai/response_parser.py. -/
def sanitize_ai_output (text : List Char) (maxLength : Nat) : List Char :=
  if text.isEmpty then []
  else
    let t1 := stripTags text
    let t2 := collapseWs t1
    let t3 := collapseNl t2
    let t4 := if maxLength < t3.length then t3.take maxLength ++ truncationMarker else t3
    pyStrip t4

/-- `sanitize_ai_output` on `String`s with the source's default
`max_length = 10000`. -/
def sanitizeStr (s : String) (maxLength : Nat) : String :=
  String.mk (sanitize_ai_output s.data maxLength)

theorem collapseWsAux_no_newline (s : List Char) :
    ∀ inRun : Bool, '\n' ∉ collapseWsAux inRun s := by
  induction s with
  | nil => intro inRun; simp [collapseWsAux]
  | cons c rest ih =>
    intro inRun
    rw [collapseWsAux]
    by_cases h : isPySpace c
    · rw [if_pos h]
      cases inRun
      · simp only [Bool.false_eq_true, if_false, List.mem_cons, not_or]
        exact ⟨by decide, ih true⟩
      · simpa using ih true
    · rw [if_neg h]
      simp only [List.mem_cons, not_or]
      refine ⟨fun h1 => h ?_, ih false⟩
      subst h1; decide

theorem collapseWs_no_newline (s : List Char) : '\n' ∉ collapseWs s :=
  collapseWsAux_no_newline s false

theorem collapseNl_eq_self_of_no_newline :
    ∀ (s : List Char), '\n' ∉ s → collapseNl s = s
  | [], _ => by simp [collapseNl, collapseNlAux, emitNlRun]
  | c :: rest, h => by
    have hc : ¬(c = '\n') := fun e => h (by simp [e])
    have hrest := collapseNl_eq_self_of_no_newline rest
      (fun m => h (List.mem_cons_of_mem _ m))
    unfold collapseNl at hrest ⊢
    rw [collapseNlAux, if_neg hc]
    have h0 : emitNlRun 0 = [] := rfl
    rw [h0, List.nil_append, hrest]

theorem mem_pyStrip {c : Char} {s : List Char} (h : c ∈ pyStrip s) : c ∈ s := by
  unfold pyStrip at h
  rw [List.mem_reverse] at h
  have h2 := (List.dropWhile_suffix isPySpace).sublist.subset h
  rw [List.mem_reverse] at h2
  exact (List.dropWhile_suffix isPySpace).sublist.subset h2

/-- C10: for every input string, the output of `sanitize_ai_output`
contains no newline character: the whitespace-collapsing step
(`re.sub(r"\s+", " ", ...)`) replaces every whitespace run — newline
runs included — with a single space before the triple-newline rule is
applied, which makes that rule the identity on its input (unreachable);
so every sanitized text, including the parse fallback into
`executive_summary` and every stream fragment, is flattened to a single
line. -/
theorem sanitize_ai_output_no_newline (text : List Char) (maxLength : Nat) :
    collapseNl (collapseWs (stripTags text)) = collapseWs (stripTags text) ∧
    '\n' ∉ sanitize_ai_output text maxLength := by
  refine ⟨collapseNl_eq_self_of_no_newline _ (collapseWs_no_newline _), ?_⟩
  intro hmem
  unfold sanitize_ai_output at hmem
  by_cases he : text.isEmpty
  · simp [he] at hmem
  · simp only [he, if_false] at hmem
    have h4 := mem_pyStrip hmem
    rw [collapseNl_eq_self_of_no_newline _ (collapseWs_no_newline _)] at h4
    by_cases hlen : maxLength < (collapseWs (stripTags text)).length
    · rw [if_pos hlen] at h4
      rcases List.mem_append.1 h4 with h5 | h5
      · exact collapseWs_no_newline _ ((List.take_sublist _ _).subset h5)
      · exact absurd h5 (by decide)
    · rw [if_neg hlen] at h4
      exact collapseWs_no_newline _ h4

/-! ## Word-boundary keyword matching (Python `re.search`)

The risk/priority keyword scans in app/ai/response_parser.py use
patterns of the two shapes `\b(w1|w2|...)\b` and `\b(w1|w2|...)\s+risk\b`
over the lowercased text. -/

/-- `.lower()` (faithful for ASCII text). -/
def pyLower (s : List Char) : List Char := s.map Char.toLower

/-- `w` occurs in `s` as a plain substring starting at index `i`. -/
def occursAt (s w : List Char) (i : Nat) : Bool :=
  (s.drop i).take w.length == w

/-- Regex word boundary `\b` holds on the left of index `i` of `s`. -/
def leftBoundary (s : List Char) (i : Nat) : Bool :=
  i == 0 || !isWordChar (s.getD (i - 1) ' ')

/-- Regex word boundary `\b` holds on the right of index `j` of `s`
(the default `' '` makes the end of the string a boundary). -/
def rightBoundary (s : List Char) (j : Nat) : Bool :=
  !isWordChar (s.getD j ' ')

/-- `re.search(r"\b<w>\b", s)` matches at index `i`. -/
def wordMatchAt (s w : List Char) (i : Nat) : Bool :=
  occursAt s w i && leftBoundary s i && rightBoundary s (i + w.length)

/-- `re.search(r"\b(<w>)\b", s)` finds some match of word `w`. -/
def containsWord (s w : List Char) : Bool :=
  (List.range (s.length + 1)).any (wordMatchAt s w)

/-- `re.search(r"\b(<w1>|<w2>|...)\b", s)` succeeds. -/
def containsAnyWord (s : List Char) (ws : List String) : Bool :=
  ws.any (fun w => containsWord s w.data)

/-- `re.search(r"\b(<w>)\s+risk\b", s)` matches at index `i`: the
keyword, then a non-empty whitespace run (greedy `\s+` must end where a
non-space begins), then `risk` followed by a word boundary. -/
def riskPhraseAt (s w : List Char) (i : Nat) : Bool :=
  occursAt s w i && leftBoundary s i &&
    (let rest := s.drop (i + w.length)
     let wsRun := rest.takeWhile isPySpace
     let tail := rest.drop wsRun.length
     !wsRun.isEmpty && tail.take 4 == "risk".data && !isWordChar (tail.getD 4 ' '))

/-- `re.search(r"\b(<w1>|...)\s+risk\b", s)` succeeds. -/
def containsRiskPhrase (s : List Char) (ws : List String) : Bool :=
  ws.any (fun w => (List.range (s.length + 1)).any (riskPhraseAt s w.data))

/-! ## `extract_risk_level` (app/ai/response_parser.py) -/

def criticalKeywords : List String := ["critical", "severe", "emergency", "urgent"]

def highRiskKeywords : List String := ["high", "elevated", "significant"]

def moderateRiskKeywords : List String := ["moderate", "medium", "intermediate"]

def lowRiskKeywords : List String := ["low", "minimal", "stable"]

/-- `extract_risk_level(text)` from app/ai/response_parser.py: keyword
scan over the lowercased text in strict severity order, defaulting to
`"moderate"`. -/
def extract_risk_level (text : List Char) : String :=
  let t := pyLower text
  if containsAnyWord t criticalKeywords then "critical"
  else if containsRiskPhrase t highRiskKeywords then "high"
  else if containsRiskPhrase t moderateRiskKeywords then "moderate"
  else if containsRiskPhrase t lowRiskKeywords then "low"
  else "moderate"

/-- C7: when no risk keyword pattern matches, `extract_risk_level`
returns `"moderate"` and never `"low"`; when keywords are present the
match follows the strict priority order critical/severe/emergency/urgent
→ critical, then the `... risk` phrases → high, then moderate, then low. -/
theorem extract_risk_level_priority (text : List Char) :
    (containsAnyWord (pyLower text) criticalKeywords = false →
      containsRiskPhrase (pyLower text) highRiskKeywords = false →
      containsRiskPhrase (pyLower text) moderateRiskKeywords = false →
      containsRiskPhrase (pyLower text) lowRiskKeywords = false →
      extract_risk_level text = "moderate" ∧ extract_risk_level text ≠ "low") ∧
    (containsAnyWord (pyLower text) criticalKeywords = true →
      extract_risk_level text = "critical") ∧
    (containsAnyWord (pyLower text) criticalKeywords = false →
      containsRiskPhrase (pyLower text) highRiskKeywords = true →
      extract_risk_level text = "high") ∧
    (containsAnyWord (pyLower text) criticalKeywords = false →
      containsRiskPhrase (pyLower text) highRiskKeywords = false →
      containsRiskPhrase (pyLower text) moderateRiskKeywords = true →
      extract_risk_level text = "moderate") ∧
    (containsAnyWord (pyLower text) criticalKeywords = false →
      containsRiskPhrase (pyLower text) highRiskKeywords = false →
      containsRiskPhrase (pyLower text) moderateRiskKeywords = false →
      containsRiskPhrase (pyLower text) lowRiskKeywords = true →
      extract_risk_level text = "low") := by
  unfold extract_risk_level
  refine ⟨?_, ?_, ?_, ?_, ?_⟩ <;> intros <;> simp_all

theorem extract_risk_level_priority_witness :
    extract_risk_level "routine checkup".data = "moderate" ∧
    extract_risk_level "patient is at high risk".data = "high" :=
  ⟨((extract_risk_level_priority "routine checkup".data).1
      (by decide) (by decide) (by decide) (by decide)).1,
   (extract_risk_level_priority "patient is at high risk".data).2.2.1
      (by decide) (by decide)⟩

/-! ## `extract_recommendations` (app/ai/response_parser.py) -/

/-- One structured recommendation `{"text": ..., "priority": ...}`. -/
structure Recommendation where
  text : String
  priority : String
deriving DecidableEq

/-- Characters stripped from the front of a line by
`re.sub(r"^[\s\-\*\•\d\.]+", "", line)`: whitespace, hyphen, asterisk,
bullet (U+2022), digits, dot. -/
def isBulletChar (c : Char) : Bool :=
  isPySpace c || c = '-' || c = '*' || c = Char.ofNat 8226 || c.isDigit || c = '.'

/-- Python `str.split("\n")`: yields at least one (possibly empty) piece. -/
def splitOnNl : List Char → List (List Char)
  | [] => [[]]
  | c :: rest =>
    if c = '\n' then [] :: splitOnNl rest
    else
      match splitOnNl rest with
      | l :: ls => (c :: l) :: ls
      | [] => [[c]]

def highPriorityKeywords : List String := ["urgent", "immediately", "critical", "asap"]

def mediumPriorityKeywords : List String := ["monitor", "consider", "review"]

def lowPriorityKeywords : List String := ["continue", "maintain", "optional"]

/-- `extract_recommendations(text)` from app/ai/response_parser.py:
split into lines, strip bullet markers, skip blank results, classify
priority by keyword (default `"medium"`). -/
def extract_recommendations (text : List Char) : List Recommendation :=
  (splitOnNl text).filterMap (fun line =>
    let cleaned := pyStrip (line.dropWhile isBulletChar)
    if cleaned.isEmpty then none
    else
      let cl := pyLower cleaned
      let priority :=
        if containsAnyWord cl highPriorityKeywords then "high"
        else if containsAnyWord cl mediumPriorityKeywords then "medium"
        else if containsAnyWord cl lowPriorityKeywords then "low"
        else "medium"
      some ⟨String.mk cleaned, priority⟩)

/-! ## `parse_analysis_response` (app/ai/response_parser.py)

Line-by-line scan with a current-section state machine; the
`recommendations` entry starts as the empty list, may be overwritten by
the scan with a string, and is converted back to a structured list after
the scan (`recBuf` models the string state). -/

/-- The five section identities the header keywords map to. -/
inductive SectionId
  | summary
  | vitals
  | medication
  | risk
  | recommend
deriving DecidableEq

/-- A line opens a header when it starts with `##`, or both starts and
ends with `**`. -/
def isHeaderLine (line : List Char) : Bool :=
  "##".data.isPrefixOf line ||
    ("**".data.isPrefixOf line && "**".data.isSuffixOf line)

/-- Python `line.strip("#* ")`: strip the characters `#`, `*`, `space`
from both ends. -/
def stripHeaderChars (s : List Char) : List Char :=
  let p : Char → Bool := fun c => c = '#' || c = '*' || c = ' '
  ((s.dropWhile p).reverse.dropWhile p).reverse

/-- Python `w in header` (substring containment). -/
def isSubstring (w s : List Char) : Bool :=
  (List.range (s.length + 1)).any (fun i => w.isPrefixOf (s.drop i))

/-- Case-insensitive substring keyword matching of a header line, in the
source's precedence: summary, vital, medication, risk, recommend;
`none` for an unrecognized header. -/
def headerTarget (line : List Char) : Option SectionId :=
  let header := pyLower (stripHeaderChars line)
  if isSubstring "summary".data header then some .summary
  else if isSubstring "vital".data header then some .vitals
  else if isSubstring "medication".data header then some .medication
  else if isSubstring "risk".data header then some .risk
  else if isSubstring "recommend".data header then some .recommend
  else none

/-- Scan state: the four text sections, the string state of the
recommendations entry, the current section, and the pending lines. -/
structure ScanState where
  es : List Char
  va : List Char
  mr : List Char
  ra : List Char
  recBuf : Option (List Char)
  current : Option SectionId
  content : List (List Char)
deriving DecidableEq

/-- `"\n".join(current_content)`. -/
def joinLines (ls : List (List Char)) : List Char :=
  List.intercalate ['\n'] ls

/-- Store `"\n".join(current_content).strip()` into the current section
(no-op when no section is open). -/
def saveSection (st : ScanState) : ScanState :=
  match st.current with
  | none => st
  | some .summary => { st with es := pyStrip (joinLines st.content) }
  | some .vitals => { st with va := pyStrip (joinLines st.content) }
  | some .medication => { st with mr := pyStrip (joinLines st.content) }
  | some .risk => { st with ra := pyStrip (joinLines st.content) }
  | some .recommend => { st with recBuf := some (pyStrip (joinLines st.content)) }

/-- One step of the line scan. -/
def scanLine (st : ScanState) (line : List Char) : ScanState :=
  if isHeaderLine line then
    let st1 := saveSection st
    { st1 with current := headerTarget line, content := [] }
  else
    match st.current with
    | some _ => { st with content := st.content ++ [line] }
    | none => st

def initScanState : ScanState :=
  { es := [], va := [], mr := [], ra := [], recBuf := none,
    current := none, content := [] }

/-- The full line scan of `parse_analysis_response`, including the final
`# Save last section` step. -/
def scanSections (raw : List Char) : ScanState :=
  saveSection ((splitOnNl raw).foldl scanLine initScanState)

/-- The section map returned by `parse_analysis_response`. -/
structure ParsedSections where
  executive_summary : List Char
  vitals_analysis : List Char
  medication_review : List Char
  risk_assessment : List Char
  recommendations : List Recommendation
deriving DecidableEq

/-- `parse_analysis_response(raw_response)` from
app/ai/response_parser.py: scan, convert a string-valued
`recommendations` entry with `extract_recommendations`, and fall back to
`executive_summary := sanitize_ai_output(raw_response)` when all four
text sections are empty (the check skips the `recommendations` key). -/
def parse_analysis_response (raw : List Char) : ParsedSections :=
  let st := scanSections raw
  let recs :=
    match st.recBuf with
    | some s => extract_recommendations s
    | none => []
  if st.es.isEmpty && st.va.isEmpty && st.mr.isEmpty && st.ra.isEmpty then
    { executive_summary := sanitize_ai_output raw 10000,
      vitals_analysis := st.va, medication_review := st.mr,
      risk_assessment := st.ra, recommendations := recs }
  else
    { executive_summary := st.es, vitals_analysis := st.va,
      medication_review := st.mr, risk_assessment := st.ra,
      recommendations := recs }

/-- C6 counterexample: on the empty input the scan leaves every section
empty, the fallback fires, yet the sanitized input is itself empty, so
parsing succeeds with an entirely empty section map — refuting "the
resulting section map is never entirely empty on parse success". -/
theorem parse_empty_input_all_empty :
    parse_analysis_response "".data =
      { executive_summary := [], vitals_analysis := [],
        medication_review := [], risk_assessment := [],
        recommendations := [] } := by
  decide

/-- C6 (amended): if after the line scan every mapped section is empty,
`parse_analysis_response` places the entire sanitized input into
`executive_summary`; consequently the section map is non-empty on parse
success whenever the sanitized input is non-empty. -/
theorem parse_fallback_to_summary (raw : List Char)
    (h1 : (scanSections raw).es = []) (h2 : (scanSections raw).va = [])
    (h3 : (scanSections raw).mr = []) (h4 : (scanSections raw).ra = []) :
    (parse_analysis_response raw).executive_summary =
        sanitize_ai_output raw 10000 ∧
      (sanitize_ai_output raw 10000 ≠ [] →
        (parse_analysis_response raw).executive_summary ≠ []) := by
  unfold parse_analysis_response
  simp only [h1, h2, h3, h4]
  simp

theorem parse_fallback_to_summary_witness :
    (parse_analysis_response "unstructured note".data).executive_summary =
        sanitize_ai_output "unstructured note".data 10000 ∧
      (sanitize_ai_output "unstructured note".data 10000 ≠ [] →
        (parse_analysis_response "unstructured note".data).executive_summary ≠ []) :=
  parse_fallback_to_summary "unstructured note".data
    (by decide) (by decide) (by decide) (by decide)

/-! ## Streaming pipeline (app/ai/streaming.py) -/

/-- One server-push event: a token event (`{"token": ..., "done": false}`
on the wire), the terminal event (`{"done": true}`), an in-band error
event (`{"error": ..., "done": true}`), or a comment-only heartbeat
line (`: heartbeat`). -/
inductive SEvent
  | token (s : String)
  | done
  | error (msg : String)
  | heartbeat
deriving DecidableEq

/-- Events that close the stream (`"done": true` on the wire). -/
def isTerminalEvent : SEvent → Bool
  | .token _ => false
  | .done => true
  | .error _ => true
  | .heartbeat => false

/-- How the inner fragment stream of `GrokClient.stream_completion` ends:
normally, or by raising an exception after its listed fragments. -/
inductive StreamEnd
  | finished
  | raised (msg : String)
deriving DecidableEq

/-- `stream_chat_response(grok_client, messages, temperature)` from
app/ai/streaming.py, as a function of the inner fragment stream: each
fragment is sanitized (`max_length=1000`) and emitted as a token event;
a normal end appends the single terminal event; an exception raised
mid-stream is caught and converted into a single error event, after the
already-emitted token events. -/
def stream_chat_response (frags : List String) (ending : StreamEnd) :
    List SEvent :=
  match ending with
  | .finished =>
    frags.map (fun t => SEvent.token (sanitizeStr t 1000)) ++ [SEvent.done]
  | .raised m =>
    frags.map (fun t => SEvent.token (sanitizeStr t 1000)) ++ [SEvent.error m]

/-- C5: the pipeline emits one token event per fragment (sanitized, in
order) followed by exactly one terminal event — `{"done": true}` on a
normal end, `{"error": ..., "done": true}` when an exception is raised
mid-stream (never an unhandled exception); the `["Hel", "lo"]` stream
produces exactly two token events then one done event. -/
theorem stream_chat_response_events (frags : List String) (ending : StreamEnd) :
    stream_chat_response frags ending =
        frags.map (fun t => SEvent.token (sanitizeStr t 1000)) ++
          [match ending with
           | .finished => SEvent.done
           | .raised m => SEvent.error m] ∧
      (stream_chat_response frags ending).countP
          (fun e => isTerminalEvent e) = 1 ∧
      stream_chat_response ["Hel", "lo"] StreamEnd.finished =
        [SEvent.token "Hel", SEvent.token "lo", SEvent.done] := by
  refine ⟨by cases ending <;> rfl, ?_, by decide⟩
  cases ending <;>
    simp [stream_chat_response, List.countP_append, List.countP_map,
      Function.comp_def, isTerminalEvent, List.countP_eq_zero]

/-! ## `stream_with_heartbeat` (app/ai/streaming.py)

The wrapper first forwards every inner chunk (updating
`last_data_time`), and only then enters `while True:` — a loop that
checks once per second whether `heartbeat_interval = 15` seconds have
passed since the last emitted event, yields `": heartbeat\n\n"` when so,
and has no exit whatsoever.  The loop is modelled with an explicit
`fuel` bound on the number of observed one-second iterations; because
the source loop never breaks or returns, every finite observation window
is a prefix of the wrapper's output. -/

/-- The post-completion heartbeat loop: `elapsed` is the number of
seconds since the last emitted event; a heartbeat resets the timer
(then the one-second sleep brings it to 1). -/
def heartbeatLoop : Nat → Nat → List SEvent
  | 0, _ => []
  | fuel + 1, elapsed =>
    if 15 ≤ elapsed then SEvent.heartbeat :: heartbeatLoop fuel 1
    else heartbeatLoop fuel (elapsed + 1)

/-- `stream_with_heartbeat(generator, heartbeat_interval=15)` observed
for `fuel` seconds past the inner stream's completion. -/
def stream_with_heartbeat (inner : List SEvent) (fuel : Nat) : List SEvent :=
  inner ++ heartbeatLoop fuel 0

theorem heartbeatLoop_count (fuel : Nat) : ∀ elapsed : Nat,
    (fuel + min elapsed 15) / 16 ≤
      (heartbeatLoop fuel elapsed).countP
        (fun e => decide (e = SEvent.heartbeat)) := by
  induction fuel with
  | zero =>
    intro elapsed
    simp only [heartbeatLoop, List.countP_nil]
    have := Nat.min_le_right elapsed 15
    omega
  | succ fuel ih =>
    intro elapsed
    by_cases h : 15 ≤ elapsed
    · rw [heartbeatLoop, if_pos h]
      rw [List.countP_cons_of_pos _ _ (by decide)]
      have h1 := ih 1
      have hmin : min elapsed 15 = 15 := by omega
      rw [hmin]
      have hmin1 : min 1 15 = 1 := by decide
      rw [hmin1] at h1
      omega
    · rw [heartbeatLoop, if_neg h]
      have h1 := ih (elapsed + 1)
      have hmin : min elapsed 15 = elapsed := by omega
      have hmin1 : min (elapsed + 1) 15 = elapsed + 1 := by omega
      rw [hmin1] at h1
      rw [hmin]
      omega

/-- C9: the wrapped stream of a finite inner stream is NOT finite and
does NOT stay heartbeat-free — after the inner stream completes, the
source's `while True:` loop emits at least `n` heartbeats within any
`16 * n`-second observation window (so the heartbeat count grows without
bound and the wrapped stream never terminates); in particular an inner
stream that completes immediately is followed by a heartbeat within 16
seconds. -/
theorem stream_with_heartbeat_unbounded (inner : List SEvent) (n : Nat) :
    n ≤ (stream_with_heartbeat inner (16 * n)).countP
          (fun e => decide (e = SEvent.heartbeat)) ∧
      SEvent.heartbeat ∈ stream_with_heartbeat [SEvent.done] 16 := by
  refine ⟨?_, by decide⟩
  unfold stream_with_heartbeat
  rw [List.countP_append]
  have h := heartbeatLoop_count (16 * n) 0
  simp only [Nat.min_zero, Nat.add_zero] at h
  have : 16 * n / 16 = n := by omega
  omega

/-! ## JSON values and `GrokClient._parse_non_streaming_response`
(app/ai/grok_client.py)

JSON numbers are modelled as integers (no claim involves non-integral
response payloads); Python `repr` string escaping is elided. -/

inductive JVal
  | null
  | bool (b : Bool)
  | num (n : Int)
  | str (s : String)
  | arr (xs : List JVal)
  | obj (fields : List (String × JVal))

/-- The single-quote character used by Python `repr` of strings. -/
def pyQuote : String := String.singleton (Char.ofNat 39)

mutual

/-- Python `repr()` of a JSON-shaped value. -/
def pyRepr : JVal → String
  | .null => "None"
  | .bool true => "True"
  | .bool false => "False"
  | .num n => toString n
  | .str s => pyQuote ++ s ++ pyQuote
  | .arr xs => "[" ++ pyReprItems xs ++ "]"
  | .obj fields => "\x7b" ++ pyReprFields fields ++ "\x7d"

/-- Comma-separated `repr`s of list items. -/
def pyReprItems : List JVal → String
  | [] => ""
  | [x] => pyRepr x
  | x :: xs => pyRepr x ++ ", " ++ pyReprItems xs

/-- Comma-separated `repr(key): repr(value)` pairs of a dict. -/
def pyReprFields : List (String × JVal) → String
  | [] => ""
  | [(k, v)] => pyQuote ++ k ++ pyQuote ++ ": " ++ pyRepr v
  | (k, v) :: fs => pyQuote ++ k ++ pyQuote ++ ": " ++ pyRepr v ++ ", " ++ pyReprFields fs

end

/-- Python `str()` of a JSON-shaped value: the identity on strings,
`repr` otherwise. -/
def pyStr : JVal → String
  | .null => "None"
  | .bool true => "True"
  | .bool false => "False"
  | .num n => toString n
  | .str s => s
  | .arr xs => pyRepr (.arr xs)
  | .obj fields => pyRepr (.obj fields)

/-- JSON values on which Python `len()` succeeds: strings, lists and
dicts.  `len(None)`, `len(number)` and `len(bool)` raise `TypeError`. -/
def hasLen : JVal → Bool
  | .str _ => true
  | .arr _ => true
  | .obj _ => true
  | _ => false

/-- The OpenAI-shaped extraction `data["choices"][0]["message"]["content"]`
inside its `try`/`except (KeyError, IndexError, TypeError)`: any lookup
or indexing failure falls through to the alternative formats.  The
source additionally calls `len(content)` while logging inside the same
`try`, so a `content` value without a length (`None`, number, boolean)
also falls through; on a string, list or dict `content` the branch
succeeds and `return content` yields the raw value unconverted. -/
def openaiContent (data : List (String × JVal)) : Option JVal :=
  match List.lookup "choices" data with
  | some (.arr (first :: _)) =>
    match first with
    | .obj msgFields =>
      match List.lookup "message" msgFields with
      | some (.obj contentFields) =>
        match List.lookup "content" contentFields with
        | some v => if hasLen v then some v else none
        | none => none
      | _ => none
    | _ => none
  | _ => none

/-- The alternative top-level fields tried in order by
`_parse_non_streaming_response`. -/
def alternativeFields : List String :=
  ["generated_text", "text", "response", "content"]

/-- The `for field, format_name in alternative_formats` loop:
`if field in data: return str(data[field])`. -/
def tryAlternatives : List String → List (String × JVal) → Option String
  | [], _ => none
  | f :: fs, data =>
    match List.lookup f data with
    | some v => some (pyStr v)
    | none => tryAlternatives fs data

/-- `GrokClient._parse_non_streaming_response(data)`: the OpenAI shape
first (returning the content value as-is), then the alternative
top-level fields in order (each returned through `str()`); when nothing
matches, the raised `Exception` carries `list(data.keys())`. -/
def parse_non_streaming_response (data : List (String × JVal)) :
    Except (List String) JVal :=
  match openaiContent data with
  | some v => .ok v
  | none =>
    match tryAlternatives alternativeFields data with
    | some s => .ok (.str s)
    | none => .error (data.map Prod.fst)

/-- C4: the response parser attempts the supported shapes in fixed
priority order — `choices[0].message.content`, then the top-level fields
`generated_text`, `text`, `response`, `content` — returning the first
match; when none matches it fails carrying the list of available
top-level field names. -/
theorem parse_non_streaming_response_priority (data : List (String × JVal)) :
    (∀ v, openaiContent data = some v →
      parse_non_streaming_response data = .ok v) ∧
    (∀ v, openaiContent data = none →
      List.lookup "generated_text" data = some v →
      parse_non_streaming_response data = .ok (.str (pyStr v))) ∧
    (∀ v, openaiContent data = none →
      List.lookup "generated_text" data = none →
      List.lookup "text" data = some v →
      parse_non_streaming_response data = .ok (.str (pyStr v))) ∧
    (∀ v, openaiContent data = none →
      List.lookup "generated_text" data = none →
      List.lookup "text" data = none →
      List.lookup "response" data = some v →
      parse_non_streaming_response data = .ok (.str (pyStr v))) ∧
    (∀ v, openaiContent data = none →
      List.lookup "generated_text" data = none →
      List.lookup "text" data = none →
      List.lookup "response" data = none →
      List.lookup "content" data = some v →
      parse_non_streaming_response data = .ok (.str (pyStr v))) ∧
    (openaiContent data = none →
      List.lookup "generated_text" data = none →
      List.lookup "text" data = none →
      List.lookup "response" data = none →
      List.lookup "content" data = none →
      parse_non_streaming_response data = .error (data.map Prod.fst)) := by
  refine ⟨?_, ?_, ?_, ?_, ?_, ?_⟩
  · intro v h
    unfold parse_non_streaming_response
    rw [h]
  · intro v ho hg
    unfold parse_non_streaming_response
    rw [ho]
    simp only [alternativeFields, tryAlternatives, hg]
  · intro v ho hg ht
    unfold parse_non_streaming_response
    rw [ho]
    simp only [alternativeFields, tryAlternatives, hg, ht]
  · intro v ho hg ht hr
    unfold parse_non_streaming_response
    rw [ho]
    simp only [alternativeFields, tryAlternatives, hg, ht, hr]
  · intro v ho hg ht hr hc
    unfold parse_non_streaming_response
    rw [ho]
    simp only [alternativeFields, tryAlternatives, hg, ht, hr, hc]
  · intro ho hg ht hr hc
    unfold parse_non_streaming_response
    rw [ho]
    simp only [alternativeFields, tryAlternatives, hg, ht, hr, hc]

theorem parse_non_streaming_response_priority_witness :
    parse_non_streaming_response
        [("choices", JVal.arr [JVal.obj
            [("message", JVal.obj [("content", JVal.arr [JVal.str "hello"])])]]),
         ("text", JVal.str "t")] =
        .ok (JVal.arr [JVal.str "hello"]) ∧
      parse_non_streaming_response [("generated_text", JVal.str "hi")] =
        .ok (.str (pyStr (JVal.str "hi"))) ∧
      parse_non_streaming_response [("unexpected_key", JVal.num 1)] =
        .error ["unexpected_key"] :=
  ⟨(parse_non_streaming_response_priority
      [("choices", JVal.arr [JVal.obj
          [("message", JVal.obj [("content", JVal.arr [JVal.str "hello"])])]]),
       ("text", JVal.str "t")]).1 (JVal.arr [JVal.str "hello"]) rfl,
   (parse_non_streaming_response_priority
      [("generated_text", JVal.str "hi")]).2.1 (JVal.str "hi") rfl rfl,
   (parse_non_streaming_response_priority
      [("unexpected_key", JVal.num 1)]).2.2.2.2.2 rfl rfl rfl rfl rfl⟩

/-! ## `GrokClient.generate_completion` retry loop (app/ai/grok_client.py)

The transport is modelled by a transcript `resp : Nat → HttpResp` giving
each attempt's HTTP response (request-level `httpx.RequestError`s are
not needed by the claims).  The loop `for attempt in range(self.max_retries)`
is modelled with the remaining iteration count as fuel, so
`attempt < self.max_retries - 1` is exactly `fuel ≠ 0` after this
iteration is consumed.  The result triple is (outcome, attempts made,
total seconds slept in backoff). -/

structure HttpResp where
  status : Nat
  body : List (String × JVal)

/-- How `generate_completion` can end (`ok` carries the value returned
by `_parse_non_streaming_response`). -/
inductive Outcome
  | ok (value : JVal)
  | rateLimited
  | modelLoading
  | authFailed
  | httpStatusError (status : Nat)
  | malformed (keys : List String)
  | sentinel

def maxRetries : Nat := 3

def generateCompletionLoop (resp : Nat → HttpResp) (attempt : Nat) :
    Nat → Outcome × Nat × Nat
  | 0 => (.sentinel, 0, 0)
  | fuel + 1 =>
    let r := resp attempt
    if r.status = 503 then
      if fuel = 0 then (.modelLoading, 1, 0)
      else
        let x := generateCompletionLoop resp (attempt + 1) fuel
        (x.1, x.2.1 + 1, x.2.2 + 5)
    else if r.status = 429 then
      if fuel = 0 then (.rateLimited, 1, 0)
      else
        let x := generateCompletionLoop resp (attempt + 1) fuel
        (x.1, x.2.1 + 1, x.2.2 + 2 ^ attempt)
    else if r.status = 403 then (.authFailed, 1, 0)
    else if 200 ≤ r.status ∧ r.status ≤ 299 then
      match parse_non_streaming_response r.body with
      | .ok t => (.ok t, 1, 0)
      | .error keys => (.malformed keys, 1, 0)
    else
      if fuel = 0 then (.httpStatusError r.status, 1, 0)
      else
        let x := generateCompletionLoop resp (attempt + 1) fuel
        (x.1, x.2.1 + 1, x.2.2 + 1)

/-- `GrokClient.generate_completion` as a function of the transport
transcript. -/
def generate_completion (resp : Nat → HttpResp) : Outcome × Nat × Nat :=
  generateCompletionLoop resp 0 maxRetries

/-- A provider that returns HTTP 429 on every attempt. -/
def all429 : Nat → HttpResp := fun _ => { status := 429, body := [] }

/-- C1 counterexample: with HTTP 429 on every attempt the loop sleeps
`2^0 = 1` then `2^1 = 2` seconds and raises on the third attempt, so the
total elapsed backoff is 3 seconds — not the claimed 1+2+4 = 7. -/
theorem generate_completion_429_backoff_counterexample :
    generate_completion all429 = (Outcome.rateLimited, 3, 3) ∧
      (3 : Nat) ≠ 1 + 2 + 4 := by
  constructor
  · rfl
  · decide

/-- C1 (amended): when the provider returns HTTP 429 on every attempt,
`generate_completion` makes exactly 3 attempts, backs off `2^attempt`
seconds between consecutive attempts (1 s then 2 s), raises
`RateLimitError` on the final attempt without sleeping, and the total
elapsed backoff is `1 + 2 = 3` seconds. -/
theorem generate_completion_429_exhausts (resp : Nat → HttpResp)
    (h0 : (resp 0).status = 429) (h1 : (resp 1).status = 429)
    (h2 : (resp 2).status = 429) :
    generate_completion resp = (Outcome.rateLimited, 3, 1 + 2) := by
  have e2 : generateCompletionLoop resp 2 1 = (Outcome.rateLimited, 1, 0) := by
    rw [show (1 : Nat) = 0 + 1 from rfl, generateCompletionLoop]
    simp [h2]
  have e1 : generateCompletionLoop resp 1 2 = (Outcome.rateLimited, 2, 2) := by
    rw [show (2 : Nat) = 1 + 1 from rfl, generateCompletionLoop]
    simp [h1, e2]
  have e0 : generateCompletionLoop resp 0 3 = (Outcome.rateLimited, 3, 3) := by
    rw [show (3 : Nat) = 2 + 1 from rfl, generateCompletionLoop]
    simp [h0, e1]
  unfold generate_completion maxRetries
  rw [e0]

theorem generate_completion_429_exhausts_witness :
    generate_completion all429 = (Outcome.rateLimited, 3, 1 + 2) :=
  generate_completion_429_exhausts all429 rfl rfl rfl

/-! ## Medical calculations (app/utils/medical_calculations.py)

Values are rationals; the claim inputs are exact. -/

/-- `calculate_linear_trend(values)`: least-squares slope over the list
in its given order (index = x), classified `increasing` (slope > 1),
`decreasing` (slope < -1), else `stable`. -/
def calculate_linear_trend (values : List ℚ) : String :=
  if values.length < 2 then "stable"
  else
    let n := values.length
    let xMean : ℚ := (((List.range n).map (fun (i : ℕ) => (i : ℚ))).sum) / n
    let yMean : ℚ := values.sum / n
    let numerator : ℚ :=
      ((List.range n).map
        (fun (i : ℕ) => ((i : ℚ) - xMean) * (values.getD i 0 - yMean))).sum
    let denominator : ℚ :=
      ((List.range n).map (fun (i : ℕ) => ((i : ℚ) - xMean) ^ 2)).sum
    if denominator = 0 then "stable"
    else
      let slope := numerator / denominator
      if 1 < slope then "increasing"
      else if slope < -1 then "decreasing"
      else "stable"

/-- `get_vital_status(vital_type, value)`: compare against the fixed
physiological normal ranges; unknown types are `normal`. -/
def get_vital_status (vitalType : String) (value : ℚ) : String :=
  let bounds : Option (ℚ × ℚ) :=
    if vitalType = "systolic" then some (90, 140)
    else if vitalType = "diastolic" then some (60, 90)
    else if vitalType = "heart_rate" then some (60, 100)
    else if vitalType = "temperature" then some (36.1, 37.2)
    else if vitalType = "oxygen_saturation" then some (95, 100)
    else if vitalType = "respiratory_rate" then some (12, 20)
    else none
  match bounds with
  | none => "normal"
  | some (lo, hi) =>
    if value < lo then "low"
    else if hi < value then "high"
    else "normal"

/-- The fields of a patient record used by the analysis core. -/
structure Patient where
  age : Int

/-- The vital-sign fields read by `_analyze_vitals` /
`calculate_risk_score`; `none` models a SQL NULL. -/
structure VitalRec where
  blood_pressure_systolic : Option ℚ
  heart_rate : Option ℚ
  temperature : Option ℚ
  oxygen_saturation : Option ℚ
deriving DecidableEq

structure MedicationRec where
  name : String
  dosage : String
  frequency : String
  indication : String
  is_active : Bool
deriving DecidableEq

/-- Python truthiness of an optional numeric field (`None` and `0` are
falsy), as used in `if vital.blood_pressure_systolic and ...` and in the
series comprehensions of `_analyze_vitals`. -/
def truthyOptNum (x : Option ℚ) : Bool :=
  match x with
  | some q => decide (q ≠ 0)
  | none => false

/-- The dict returned by `calculate_risk_score` (its `factors` list is
always empty in the source). -/
structure RiskScoreResult where
  risk_level : String
  risk_score : Int
  factors : List String
deriving DecidableEq

/-- `calculate_risk_score(patient, vitals, medications)`: +2 if age > 65,
+1 per recent (first 5 listed) systolic reading above 140, +2 if active
medication count > 5; bucketed critical ≥ 5, high ≥ 3, moderate ≥ 1,
else low. -/
def calculate_risk_score (patient : Patient) (vitals : List VitalRec)
    (medications : List MedicationRec) : RiskScoreResult :=
  let ageScore : Int := if 65 < patient.age then 2 else 0
  let vitalScore : Int :=
    ((vitals.take 5).countP (fun v =>
      truthyOptNum v.blood_pressure_systolic &&
        decide (140 < v.blood_pressure_systolic.getD 0)) : Nat)
  let activeMeds := medications.countP (fun m => m.is_active)
  let score := ageScore + vitalScore + (if 5 < activeMeds then 2 else 0)
  let level :=
    if 5 ≤ score then "critical"
    else if 3 ≤ score then "high"
    else if 1 ≤ score then "moderate"
    else "low"
  { risk_level := level, risk_score := score, factors := [] }

/-! ## `AIAnalysisService` deterministic analyzers
(app/services/ai_analysis_service.py)

`generate_analysis_report` fetches vitals ordered `timestamp DESC`
(newest first) and passes that list to `_analyze_vitals`, which uses
`values[0]` as the current reading and the same newest-first list as the
x-ordered series of `calculate_linear_trend`. -/

/-- One entry of the `trends` list built by `_analyze_vitals`. -/
structure TrendEntry where
  parameter : String
  current : ℚ
  average : ℚ
  trend : String
  status : String
  unit : String
deriving DecidableEq

structure VitalsAnalysis where
  trends : List TrendEntry
  anomalies_detected : Nat
  narrative : String
deriving DecidableEq

/-- Python `round(x, 1)`: round half to even at one decimal place. -/
def pyRound1 (x : ℚ) : ℚ :=
  let y := x * 10
  let f : Int := Int.floor y
  let frac := y - f
  let r : Int :=
    if frac < 1 / 2 then f
    else if 1 / 2 < frac then f + 1
    else if f % 2 = 0 then f
    else f + 1
  (r : ℚ) / 10

/-- The comprehension
`[v.blood_pressure_systolic for v in vitals if v.blood_pressure_systolic]`. -/
def systolicSeries (vitals : List VitalRec) : List ℚ :=
  vitals.filterMap (fun v =>
    if truthyOptNum v.blood_pressure_systolic then v.blood_pressure_systolic
    else none)

/-- The comprehension `[v.heart_rate for v in vitals if v.heart_rate]`. -/
def hrSeries (vitals : List VitalRec) : List ℚ :=
  vitals.filterMap (fun v =>
    if truthyOptNum v.heart_rate then v.heart_rate else none)

/-- `AIAnalysisService._analyze_vitals(vitals)`.  The source also
extracts temperature and oxygen-saturation series, but builds trend
entries only for systolic BP and heart rate; the unused series are
omitted here.  `vitals` is the newest-first list from the query. -/
def analyze_vitals (vitals : List VitalRec) : VitalsAnalysis :=
  if vitals.isEmpty then
    { trends := [], anomalies_detected := 0,
      narrative := "No vitals data available" }
  else
    let systolicValues := systolicSeries vitals
    let hrValues := hrSeries vitals
    let sysEntry : List TrendEntry × Nat :=
      match systolicValues with
      | [] => ([], 0)
      | current :: _ =>
        let avg : ℚ := systolicValues.sum / systolicValues.length
        let status := get_vital_status "systolic" current
        ([{ parameter := "Systolic BP", current := current,
            average := pyRound1 avg,
            trend := calculate_linear_trend systolicValues,
            status := status, unit := "mmHg" }],
         if status ≠ "normal" then 1 else 0)
    let hrEntry : List TrendEntry × Nat :=
      match hrValues with
      | [] => ([], 0)
      | current :: _ =>
        let avg : ℚ := hrValues.sum / hrValues.length
        let status := get_vital_status "heart_rate" current
        ([{ parameter := "Heart Rate", current := current,
            average := pyRound1 avg,
            trend := calculate_linear_trend hrValues,
            status := status, unit := "bpm" }],
         if status ≠ "normal" then 1 else 0)
    let anomalies := sysEntry.2 + hrEntry.2
    { trends := sysEntry.1 ++ hrEntry.1,
      anomalies_detected := anomalies,
      narrative := "Analysis of " ++ toString vitals.length ++
        " vital readings. " ++ toString anomalies ++
        " parameter(s) outside normal range." }

/-- The seven systolic readings of the claim's scenario, in
chronological order. -/
def chronologicalSystolic : List ℚ := [120, 125, 130, 135, 140, 145, 150]

/-- The vitals list as `generate_analysis_report` receives it for that
scenario: ordered `timestamp DESC`, i.e. the chronological readings
reversed. -/
def c2Vitals : List VitalRec :=
  chronologicalSystolic.reverse.map
    (fun q => { blood_pressure_systolic := some q, heart_rate := none,
                temperature := none, oxygen_saturation := none })

theorem trend_chron_eval :
    calculate_linear_trend chronologicalSystolic = "increasing" := by
  have hlen : chronologicalSystolic.length = 7 := rfl
  have hrange : List.range 7 = [0, 1, 2, 3, 4, 5, 6] := rfl
  have g0 : chronologicalSystolic[0]?.getD 0 = (120 : ℚ) := rfl
  have g1 : chronologicalSystolic[1]?.getD 0 = (125 : ℚ) := rfl
  have g2 : chronologicalSystolic[2]?.getD 0 = (130 : ℚ) := rfl
  have g3 : chronologicalSystolic[3]?.getD 0 = (135 : ℚ) := rfl
  have g4 : chronologicalSystolic[4]?.getD 0 = (140 : ℚ) := rfl
  have g5 : chronologicalSystolic[5]?.getD 0 = (145 : ℚ) := rfl
  have g6 : chronologicalSystolic[6]?.getD 0 = (150 : ℚ) := rfl
  have hsum : chronologicalSystolic.sum = 120 + 125 + 130 + 135 + 140 + 145 + 150 := by
    simp [chronologicalSystolic]
    ring
  rw [calculate_linear_trend, hlen]
  norm_num [hrange, g0, g1, g2, g3, g4, g5, g6, hsum,
    List.map_cons, List.map_nil, List.sum_cons, List.sum_nil]

/-- The systolic series as `_analyze_vitals` receives it for the C2
scenario: newest first. -/
def descSystolic : List ℚ := [150, 145, 140, 135, 130, 125, 120]

theorem trend_desc_eval : calculate_linear_trend descSystolic = "decreasing" := by
  have hlen : descSystolic.length = 7 := rfl
  have hrange : List.range 7 = [0, 1, 2, 3, 4, 5, 6] := rfl
  have g0 : descSystolic[0]?.getD 0 = (150 : ℚ) := rfl
  have g1 : descSystolic[1]?.getD 0 = (145 : ℚ) := rfl
  have g2 : descSystolic[2]?.getD 0 = (140 : ℚ) := rfl
  have g3 : descSystolic[3]?.getD 0 = (135 : ℚ) := rfl
  have g4 : descSystolic[4]?.getD 0 = (130 : ℚ) := rfl
  have g5 : descSystolic[5]?.getD 0 = (125 : ℚ) := rfl
  have g6 : descSystolic[6]?.getD 0 = (120 : ℚ) := rfl
  have hsum : descSystolic.sum = 150 + 145 + 140 + 135 + 130 + 125 + 120 := by
    simp [descSystolic]
    ring
  rw [calculate_linear_trend, hlen]
  norm_num [hrange, g0, g1, g2, g3, g4, g5, g6, hsum,
    List.map_cons, List.map_nil, List.sum_cons, List.sum_nil]

/-- C2 failing input: the chronological series has least-squares slope 5
and classifies `increasing` — but the service feeds the newest-first
(`timestamp DESC`) list to `calculate_linear_trend`, whose slope is then
−5, so the generated systolic trend entry reports current 150 with trend
`"decreasing"`, not `"increasing"` as the claim states. -/
theorem analyze_vitals_desc_order_inverts_trend :
    calculate_linear_trend chronologicalSystolic = "increasing" ∧
      (analyze_vitals c2Vitals).trends =
        [{ parameter := "Systolic BP", current := 150, average := 135,
           trend := "decreasing", status := "high", unit := "mmHg" }] ∧
      "decreasing" ≠ "increasing" := by
  refine ⟨trend_chron_eval, ?_, by decide⟩
  have hne : c2Vitals.isEmpty = false := by decide
  have hsys : systolicSeries c2Vitals = descSystolic := by decide
  have hhr : hrSeries c2Vitals = [] := by decide
  have hstat : get_vital_status "systolic" 150 = "high" := by decide
  have havg : pyRound1 (descSystolic.sum / (descSystolic.length : ℚ)) = 135 := by
    have hs : descSystolic.sum = 945 := by
      simp [descSystolic]; ring
    have hl : descSystolic.length = 7 := rfl
    rw [pyRound1, hs, hl]
    norm_num
  rw [analyze_vitals]
  rw [hne]
  simp only [Bool.false_eq_true, if_false, hsys, hhr, trend_desc_eval, hstat, havg]
  simp [descSystolic, hstat]

/-! ## `_review_medications`, `_calculate_health_score`,
`_generate_recommendations` (app/services/ai_analysis_service.py) -/

structure MedListEntry where
  name : String
  dosage : String
  frequency : String
  indication : String
deriving DecidableEq

structure MedsReview where
  active_medications_count : Nat
  medications : List MedListEntry
  narrative : String
deriving DecidableEq

/-- `AIAnalysisService._review_medications(medications)`. -/
def review_medications (medications : List MedicationRec) : MedsReview :=
  let activeCount := medications.countP (fun m => m.is_active)
  { active_medications_count := activeCount,
    medications := (medications.take 10).map (fun m =>
      { name := m.name, dosage := m.dosage, frequency := m.frequency,
        indication := m.indication }),
    narrative := "Patient currently on " ++ toString activeCount ++
      " active medication(s)." }

/-- The deduction map `{"low": 0, "moderate": 10, "high": 25,
"critical": 40}` with `dict.get(..., 0)` semantics for unknown levels. -/
def risk_level_deduction (level : String) : Int :=
  if level = "low" then 0
  else if level = "moderate" then 10
  else if level = "high" then 25
  else if level = "critical" then 40
  else 0

/-- `AIAnalysisService._calculate_health_score(risk_assessment,
vitals_analysis, meds_review)`: start at 100, deduct the risk-level map
value, 5 per anomaly, 2 per active medication above 5, clamp. -/
def calculate_health_score (risk : Option RiskScoreResult)
    (vitalsAnalysis : Option VitalsAnalysis)
    (medsReview : Option MedsReview) : Int :=
  let s1 : Int := 100 -
    (match risk with
     | some r => risk_level_deduction r.risk_level
     | none => 0)
  let s2 : Int := s1 -
    (match vitalsAnalysis with
     | some v => (v.anomalies_detected : Int) * 5
     | none => 0)
  let s3 : Int := s2 -
    (match medsReview with
     | some m =>
       if 5 < m.active_medications_count then
         ((m.active_medications_count : Int) - 5) * 2
       else 0
     | none => 0)
  max 0 (min 100 s3)

/-- The health-score rule exactly as the specification words it: 100,
minus the risk-level deduction (none when the risk assessment was not
computed), minus 5 per detected vital anomaly, minus 2 per active
medication beyond a threshold of 5, clamped to [0, 100]. -/
def healthScoreSpec (riskLevel : Option String) (anomalies activeMeds : Nat) : Int :=
  let deduction : Int :=
    match riskLevel with
    | some l => risk_level_deduction l
    | none => 0
  max 0 (min 100
    (100 - deduction - 5 * (anomalies : Int) - 2 * max ((activeMeds : Int) - 5) 0))

/-- C3: the generated `overall_health_score` equals the specification's
formula — 100 minus the risk-level map deduction (none when the risk
assessment was not computed), minus 5 per detected vital anomaly, minus
2 per active medication beyond 5 — clamped to [0, 100]. -/
theorem calculate_health_score_spec (risk : Option RiskScoreResult)
    (vitalsAnalysis : Option VitalsAnalysis) (medsReview : Option MedsReview) :
    calculate_health_score risk vitalsAnalysis medsReview =
        healthScoreSpec (risk.map (fun r => r.risk_level))
          (match vitalsAnalysis with
           | some v => v.anomalies_detected
           | none => 0)
          (match medsReview with
           | some m => m.active_medications_count
           | none => 0) ∧
      0 ≤ calculate_health_score risk vitalsAnalysis medsReview ∧
      calculate_health_score risk vitalsAnalysis medsReview ≤ 100 := by
  rcases risk with _ | r <;> rcases vitalsAnalysis with _ | v <;>
    rcases medsReview with _ | m <;>
    simp only [calculate_health_score, healthScoreSpec, Option.map] <;>
    refine ⟨?_, ?_, ?_⟩ <;> omega

/-! ## `_generate_recommendations` and the report `sections` map
(app/services/ai_analysis_service.py) -/

structure RecommendationItem where
  priority : String
  category : String
  recommendation : String
deriving DecidableEq

/-- `AIAnalysisService._generate_recommendations(vitals_analysis,
meds_review, risk_assessment)` (the risk argument is unused by the
source body). -/
def generate_recommendations (vitalsAnalysis : Option VitalsAnalysis)
    (medsReview : Option MedsReview) (risk : Option RiskScoreResult) :
    List RecommendationItem :=
  let vitalsRec : List RecommendationItem :=
    if (match vitalsAnalysis with
        | some v => decide (0 < v.anomalies_detected)
        | none => false) then
      [{ priority := "high", category := "Vitals",
         recommendation :=
           "Review abnormal vital signs and consider additional monitoring" }]
    else []
  let medsRec : List RecommendationItem :=
    if (match medsReview with
        | some m => decide (5 < m.active_medications_count)
        | none => false) then
      [{ priority := "medium", category := "Medications",
         recommendation :=
           "Consider medication reconciliation to reduce polypharmacy risk" }]
    else []
  let recs := vitalsRec ++ medsRec
  if recs.isEmpty then
    [{ priority := "low", category := "General",
       recommendation :=
         "Continue current treatment plan and regular monitoring" }]
  else recs

/-- `AnalysisOptions` (app/schemas/ai_analysis.py). -/
structure AnalysisOptions where
  include_vitals : Bool
  include_medications : Bool
  include_risk_assessment : Bool
  include_comparative_analysis : Bool

/-- A value of the heterogeneous `sections` dictionary. -/
inductive SectionVal
  | vitals (v : Option VitalsAnalysis)
  | meds (m : Option MedsReview)
  | risk (r : Option RiskScoreResult)
  | recs (l : List RecommendationItem)
deriving DecidableEq

/-- The `sections` dictionary literal assembled by
`AIAnalysisService.generate_analysis_report`, in its key order, for the
fetched inputs: analyzers run only when the matching option is on and
data is present (`options.include_vitals and vitals`, etc.; the risk
assessment needs only its option), and an absent category keeps the
Python `None` (here `none`) as its value. -/
def report_sections (options : AnalysisOptions) (patient : Patient)
    (vitals : List VitalRec) (medications : List MedicationRec) :
    List (String × SectionVal) :=
  let vitalsAnalysis :=
    if options.include_vitals && !vitals.isEmpty then
      some (analyze_vitals vitals)
    else none
  let medicationsReview :=
    if options.include_medications && !medications.isEmpty then
      some (review_medications medications)
    else none
  let riskAssessment :=
    if options.include_risk_assessment then
      some (calculate_risk_score patient vitals medications)
    else none
  let recommendations :=
    generate_recommendations vitalsAnalysis medicationsReview riskAssessment
  [("vitals_analysis", SectionVal.vitals vitalsAnalysis),
   ("medication_review", SectionVal.meds medicationsReview),
   ("risk_assessment", SectionVal.risk riskAssessment),
   ("recommendations", SectionVal.recs recommendations)]

/-- C8: every generated report's `sections` map has exactly the four
analysis category keys, in all cases — and a category whose input data
was absent or whose option was disabled is present with an empty
(`none`) value, never a missing key. -/
theorem report_sections_keys (options : AnalysisOptions) (patient : Patient)
    (vitals : List VitalRec) (medications : List MedicationRec) :
    ∃ va mr ra recs,
      report_sections options patient vitals medications =
          [("vitals_analysis", SectionVal.vitals va),
           ("medication_review", SectionVal.meds mr),
           ("risk_assessment", SectionVal.risk ra),
           ("recommendations", SectionVal.recs recs)] ∧
        ((options.include_vitals = false ∨ vitals = []) → va = none) ∧
        ((options.include_medications = false ∨ medications = []) → mr = none) ∧
        (options.include_risk_assessment = false → ra = none) := by
  refine ⟨_, _, _, _, rfl, ?_, ?_, ?_⟩
  · rintro (h | h) <;> simp [report_sections, h]
  · rintro (h | h) <;> simp [report_sections, h]
  · intro h
    simp [report_sections, h]

theorem report_sections_keys_witness :
    ∃ recs,
      report_sections
          { include_vitals := false, include_medications := false,
            include_risk_assessment := false,
            include_comparative_analysis := false }
          { age := 70 } [] [] =
        [("vitals_analysis", SectionVal.vitals none),
         ("medication_review", SectionVal.meds none),
         ("risk_assessment", SectionVal.risk none),
         ("recommendations", SectionVal.recs recs)] := by
  obtain ⟨va, mr, ra, recs, heq, h1, h2, h3⟩ :=
    report_sections_keys
      { include_vitals := false, include_medications := false,
        include_risk_assessment := false,
        include_comparative_analysis := false }
      { age := 70 } [] []
  exact ⟨recs, by rw [heq, h1 (Or.inl rfl), h2 (Or.inl rfl), h3 rfl]⟩

end Meditrack
